import Mathlib

/-!
Shallow embedding of the Engagement & Notification Subsystem of
`src/modules/community/notifications.ts` (both concatenated router files):
the reaction ledger with denormalized counters, the notification service and
its event-specific builders, the notification inbox, the subscription
registry, and the feed assembler.

Modelling conventions:
- The Prisma database is a `DB` record of lists of rows; `findUnique` is
  `List.find?` on the unique key, `delete` by primary id is `List.erase` of
  the found row, `update` by unique id maps over the list, and
  `createMany`/`create` append.
- Wall-clock time (`new Date()`) is an explicit `now : Nat` argument.
- A `dbOk : Bool` argument models whether a storage write inside a
  `try/catch` block succeeds; the `catch` branch (log and continue) is the
  `false` case.
- HTTP error responses are an `Err` value (`notFound` ≈ 404,
  `forbidden` ≈ 403); Prisma's record-not-found throw (P2025) is also
  modelled as `Err.notFound`.
- Notification `metadata.data` is modelled by the one field the spec
  constrains, its quoted `content`, plus the `actionUrl`.
-/

/-- A user row (`prisma.user`): `name` is nullable, `handle` is not. -/
structure User where
  id : String
  name : Option String
  handle : String
deriving Repr, DecidableEq

/-- A post row (`prisma.post`) restricted to the fields this subsystem reads. -/
structure Post where
  id : String
  authorId : String
  groupId : Option String
  title : Option String
  content : String
  status : String
  createdAt : Nat
  reactionCount : Int
  commentCount : Int
  viewCount : Int
deriving Repr, DecidableEq

/-- A comment row (`prisma.comment`) restricted to the fields this subsystem reads. -/
structure Comment where
  id : String
  postId : String
  authorId : String
  content : String
  createdAt : Nat
  reactionCount : Int
deriving Repr, DecidableEq

/-- A reaction-ledger row (`prisma.reaction`), unique on
(`targetType`, `targetId`, `userId`). -/
structure Reaction where
  targetType : String
  targetId : String
  userId : String
  type : String
deriving Repr, DecidableEq

/-- A notification row (`prisma.notification`). `dataContent` models the
`content` field of `metadata.data`, the only part of the free-form payload
the spec constrains. -/
structure Notification where
  id : Nat
  userId : String
  type : String
  title : String
  message : String
  scheduledFor : Nat
  status : String
  readAt : Option Nat
  createdAt : Nat
  dataContent : Option String
  actionUrl : Option String
deriving Repr, DecidableEq

/-- A subscription row (`prisma.subscription`), unique on
(`userId`, `targetType`, `targetId`). -/
structure Subscription where
  userId : String
  targetType : String
  targetId : String
  inApp : Bool
  email : Bool
  push : Bool
deriving Repr, DecidableEq

/-- The persistent store: one list of rows per Prisma model, plus a counter
supplying fresh notification ids. -/
structure DB where
  users : List User
  posts : List Post
  comments : List Comment
  reactions : List Reaction
  notifications : List Notification
  subscriptions : List Subscription
  nextId : Nat
deriving Repr, DecidableEq

/-- Error taxonomy of the handlers: `notFound` ≈ HTTP 404, `forbidden` ≈ 403. -/
inductive Err where
  | notFound
  | forbidden
deriving Repr, DecidableEq

/-- The `action` field of a toggle-reaction response. -/
inductive TAction where
  | added
  | removed
deriving Repr, DecidableEq

/-- Body of a toggle-reaction response: `{action, reaction}`. -/
structure ToggleResult where
  action : TAction
  reaction : Option Reaction
deriving Repr, DecidableEq

/-- The payload handed to `NotificationService.createNotification`
(`NotificationPayload` in the source; `dataContent` models `data.content`). -/
structure NotificationPayload where
  type : String
  title : String
  message : String
  dataContent : Option String
  actionUrl : Option String
deriving Repr, DecidableEq

/-- JS `mentioner.name || mentioner.handle`: a `null` or empty `name` is
falsy, so the handle is used as fallback. -/
def displayName (u : User) : String :=
  match u.name with
  | some n => if n = "" then u.handle else n
  | none => u.handle

/-- Source: `content.substring(0, 100) + (content.length > 100 ? '...' : '')`. -/
def truncate100 (s : String) : String :=
  String.mk (s.data.take 100) ++ (if 100 < s.data.length then "..." else "")

/-- Translation of `NotificationService.createNotification`: wrapped in `try/catch`, so on
storage failure (`dbOk = false`) it logs and returns with no row written and
no error raised; on success it appends exactly one row with
`status = "scheduled"`, `scheduledFor = now`, `readAt = null`. -/
def createNotification (dbOk : Bool) (now : Nat) (userId : String)
    (payload : NotificationPayload) (db : DB) : DB :=
  if dbOk then
    { db with
      notifications := db.notifications ++
        [{ id := db.nextId
         , userId := userId
         , type := payload.type
         , title := payload.title
         , message := payload.message
         , scheduledFor := now
         , status := "scheduled"
         , readAt := none
         , createdAt := now
         , dataContent := payload.dataContent
         , actionUrl := payload.actionUrl }]
      , nextId := db.nextId + 1 }
  else db

/-- Translation of `NotificationService.sendMentionNotification`: resolves the mentioner
(silent no-op if absent) and creates a mention notification. Note the source
performs no self-mention check. -/
def sendMentionNotification (dbOk : Bool) (now : Nat)
    (mentionedUserId mentionerId targetType targetId content : String)
    (db : DB) : DB :=
  match db.users.find? (fun u => u.id = mentionerId) with
  | none => db
  | some mentioner =>
    let actionUrl :=
      if targetType = "post" then "/posts/" ++ targetId
      else "/posts/" ++ targetId ++ "#comment-" ++ targetId
    createNotification dbOk now mentionedUserId
      { type := "mention"
      , title := "Du wurdest erwähnt"
      , message := displayName mentioner ++ " hat dich in einem " ++
          (if targetType = "post" then "Post" else "Kommentar") ++ " erwähnt"
      , dataContent := some (truncate100 content)
      , actionUrl := some actionUrl } db

/-- Translation of `NotificationService.sendReplyNotification`: silent no-op if the replier
is absent or is the original author; otherwise creates a reply notification. -/
def sendReplyNotification (dbOk : Bool) (now : Nat)
    (originalAuthorId replierId postId commentId content : String)
    (db : DB) : DB :=
  match db.users.find? (fun u => u.id = replierId) with
  | none => db
  | some replier =>
    if originalAuthorId = replierId then db
    else
      createNotification dbOk now originalAuthorId
        { type := "reply"
        , title := "Neue Antwort"
        , message := displayName replier ++ " hat auf deinen Post geantwortet"
        , dataContent := some (truncate100 content)
        , actionUrl := some ("/posts/" ++ postId ++ "#comment-" ++ commentId) } db

/-- Translation of `NotificationService.sendReactionNotification`: silent no-op if the
reactor is absent or is the content author; otherwise creates a reaction
notification (whose `data` carries no `content` field). -/
def sendReactionNotification (dbOk : Bool) (now : Nat)
    (contentAuthorId reactorId targetType targetId reactionType : String)
    (db : DB) : DB :=
  match db.users.find? (fun u => u.id = reactorId) with
  | none => db
  | some reactor =>
    if contentAuthorId = reactorId then db
    else
      let actionUrl :=
        if targetType = "post" then "/posts/" ++ targetId
        else "/posts/" ++ targetId ++ "#comment-" ++ targetId
      createNotification dbOk now contentAuthorId
        { type := "reaction"
        , title := "Neue Reaktion"
        , message := displayName reactor ++ " hat deinen " ++
            (if targetType = "post" then "Post" else "Kommentar") ++
            " mit " ++ reactionType ++ " reagiert"
        , dataContent := none
        , actionUrl := some actionUrl } db

/-- Newest-first order on notifications (`orderBy: { createdAt: 'desc' }`). -/
def notifOrder (a b : Notification) : Prop :=
  b.createdAt ≤ a.createdAt

instance : DecidableRel notifOrder := fun a b => Nat.decLe b.createdAt a.createdAt

instance : IsTotal Notification notifOrder :=
  ⟨fun a b => Nat.le_total b.createdAt a.createdAt⟩

instance : IsTrans Notification notifOrder :=
  ⟨fun _ _ _ h1 h2 => Nat.le_trans h2 h1⟩

/-- The `where` clause of `GET /notifications`: the user's rows, restricted
to unread ones when `unreadOnly`. -/
def notifWhere (userId : String) (unreadOnly : Bool) (db : DB) : List Notification :=
  let base := db.notifications.filter (fun x => x.userId = userId)
  if unreadOnly then base.filter (fun x => x.readAt = none) else base

/-- Response of `GET /notifications` (the per-item view transform of the
source is a field renaming and is omitted; `items` are the raw rows). -/
structure NotifListResult where
  items : List Notification
  unreadCount : Nat
  page : Nat
  limit : Nat
  total : Nat
deriving Repr, DecidableEq

/-- Handler `GET /notifications`: page of the user's notifications newest-first with
`skip = (page-1)*limit`, total over the filtered set, and an unread count
over the user's full unread set (independent of `page`/`limit`/`unreadOnly`). -/
def listNotifications (userId : String) (page limit : Nat) (unreadOnly : Bool)
    (db : DB) : NotifListResult :=
  let wh := notifWhere userId unreadOnly db
  let skip := (page - 1) * limit
  { items := ((List.insertionSort notifOrder wh).drop skip).take limit
  , unreadCount :=
      (db.notifications.filter (fun x => x.userId = userId ∧ x.readAt = none)).length
  , page := page
  , limit := limit
  , total := wh.length }

/-- Handler `POST /notifications/:id/read`: 404 when the id resolves to no row, 403
when the row belongs to another user, else set `readAt = now`,
`status = "delivered"` and return the updated row. -/
def markRead (now : Nat) (userId : String) (nid : Nat) (db : DB) :
    (Except Err Notification) × DB :=
  match db.notifications.find? (fun x => x.id = nid) with
  | none => (.error .notFound, db)
  | some notification =>
    if notification.userId ≠ userId then (.error .forbidden, db)
    else
      (.ok { notification with readAt := some now, status := "delivered" },
       { db with notifications := db.notifications.map (fun y =>
           if y.id = nid then { y with readAt := some now, status := "delivered" } else y) })

/-- Handler `POST /notifications/read-all`: `updateMany` over the user's rows with
`readAt = null`, setting `readAt = now`, `status = "delivered"`. -/
def markAllRead (now : Nat) (userId : String) (db : DB) : DB :=
  { db with notifications := db.notifications.map (fun x =>
      if x.userId = userId ∧ x.readAt = none
      then { x with readAt := some now, status := "delivered" } else x) }

/-- Handler `DELETE /subscriptions/:targetType/:targetId`: `prisma.subscription.delete`
on the unique triple throws Prisma's record-not-found error when no row
matches, which propagates to the caller (modelled `Err.notFound`; the express
error middleware mapping it to an HTTP status is not part of this module);
otherwise the matching row is removed. -/
def unsubscribe (userId targetType targetId : String) (db : DB) :
    (Except Err Unit) × DB :=
  match db.subscriptions.find? (fun s =>
      s.userId = userId ∧ s.targetType = targetType ∧ s.targetId = targetId) with
  | none => (.error .notFound, db)
  | some s => (.ok (), { db with subscriptions := db.subscriptions.erase s })

/-- True iff `needle` is a prefix of `hay`. -/
def isPrefixL {α : Type} [DecidableEq α] : List α → List α → Bool
  | [], _ => true
  | _ :: _, [] => false
  | a :: xs, b :: ys => a = b && isPrefixL xs ys

/-- True iff `needle` occurs as a contiguous sublist of `hay`. -/
def containsL {α : Type} [DecidableEq α] (needle : List α) : List α → Bool
  | [] => isPrefixL needle []
  | b :: ys => isPrefixL needle (b :: ys) || containsL needle ys

/-- Case-insensitive substring match (Prisma `contains` with
`mode: 'insensitive'`). -/
def containsCI (hay needle : String) : Bool :=
  containsL (needle.data.map Char.toLower) (hay.data.map Char.toLower)

/-- The free-text feed filter: OR over title, content and author name
(`author.name` resolved through the relation; a null title or name, or a
missing author, does not match). -/
def matchesSearch (db : DB) (s : String) (p : Post) : Bool :=
  (match p.title with
   | some t => containsCI t s
   | none => false)
  || containsCI p.content s
  || (match db.users.find? (fun u => u.id = p.authorId) with
      | some u =>
        match u.name with
        | some n => containsCI n s
        | none => false
      | none => false)

/-- The `where` clause of `GET /posts`: published, below the cursor when one
is given, in the group when one is given, matching the search when one is
given. -/
def feedWhere (db : DB) (cursor search groupId : Option String) (p : Post) : Bool :=
  p.status = "published"
  && (match cursor with
      | some c => decide (p.id < c)
      | none => true)
  && (match groupId with
      | some g => p.groupId = some g
      | none => true)
  && (match search with
      | some s => matchesSearch db s p
      | none => true)

/-- Order for `sort = 'new'`: descending creation time. -/
def newOrder (a b : Post) : Prop :=
  b.createdAt ≤ a.createdAt

instance : DecidableRel newOrder := fun a b => Nat.decLe b.createdAt a.createdAt

/-- Order for `sort = 'top'`: descending reaction counter. -/
def topOrder (a b : Post) : Prop :=
  b.reactionCount ≤ a.reactionCount

instance : DecidableRel topOrder := fun a b => Int.decLe b.reactionCount a.reactionCount

/-- Order for `sort = 'trending'`: descending reaction counter, then descending
creation time. -/
def trendingOrder (a b : Post) : Prop :=
  b.reactionCount < a.reactionCount ∨
    (a.reactionCount = b.reactionCount ∧ b.createdAt ≤ a.createdAt)

instance : DecidableRel trendingOrder := fun a b => by
  unfold trendingOrder; infer_instance

/-- The `orderBy` selected by the `sort` query parameter. -/
def sortPosts (sort : String) (l : List Post) : List Post :=
  if sort = "top" then List.insertionSort topOrder l
  else if sort = "trending" then List.insertionSort trendingOrder l
  else List.insertionSort newOrder l

/-- Response of `GET /posts`. -/
structure FeedResult where
  items : List Post
  page : Nat
  limit : Nat
  total : Nat
  hasMore : Bool
deriving Repr, DecidableEq

/-- Handler `GET /posts`: `skip = cursor ? 0 : (page-1)*limit`, filtered and sorted
posts paginated by `skip`/`take`, `total` over the same `where` clause, and
`hasMore = skip + limit < total`. -/
def listFeed (sort : String) (page limit : Nat) (cursor search groupId : Option String)
    (db : DB) : FeedResult :=
  let skip := match cursor with
    | some _ => 0
    | none => (page - 1) * limit
  let filtered := db.posts.filter (feedWhere db cursor search groupId)
  let total := filtered.length
  { items := ((sortPosts sort filtered).drop skip).take limit
  , page := page
  , limit := limit
  , total := total
  , hasMore := decide (skip + limit < total) }

/-- Prisma `reactionCount: { increment: d }` (or decrement) on the post `targetId`,
applied only to an existing row. -/
def bumpPost (targetId : String) (d : Int) (db : DB) : DB :=
  { db with posts := db.posts.map (fun p =>
      if p.id = targetId then { p with reactionCount := p.reactionCount + d } else p) }

/-- Prisma `reactionCount: { increment: d }` (or decrement) on the comment `targetId`. -/
def bumpComment (targetId : String) (d : Int) (db : DB) : DB :=
  { db with comments := db.comments.map (fun c =>
      if c.id = targetId then { c with reactionCount := c.reactionCount + d } else c) }

/-- The unique-triple predicate of the reaction ledger. -/
def isReactionBy (targetType targetId userId : String) (r : Reaction) : Bool :=
  r.targetType = targetType && r.targetId = targetId && r.userId = userId

/-- All live rows for one target, across users. -/
def isReactionFor (targetType targetId : String) (r : Reaction) : Bool :=
  r.targetType = targetType && r.targetId = targetId

/-- Lookup `prisma.reaction.findUnique` on the (targetType, targetId, userId) key. -/
def findReaction (db : DB) (targetType targetId userId : String) : Option Reaction :=
  db.reactions.find? (isReactionBy targetType targetId userId)

/-- Number of live ledger rows for a target. -/
def liveCount (db : DB) (targetType targetId : String) : Nat :=
  db.reactions.countP (isReactionFor targetType targetId)

/-- Number of live ledger rows for one (target, user) pair. -/
def userCount (db : DB) (targetType targetId userId : String) : Nat :=
  db.reactions.countP (isReactionBy targetType targetId userId)

/-- Handler `POST /reactions` (generic toggle): delete the existing row or create a
new one, then run the counter mutation only for `targetType` `'post'` or
`'comment'`. A counter `update` on a missing target throws Prisma's
record-not-found error after the ledger mutation has already persisted
(modelled: `Err.notFound` with the partially-updated store). -/
def toggleReaction (targetType targetId userId rtype : String) (db : DB) :
    (Except Err ToggleResult) × DB :=
  match findReaction db targetType targetId userId with
  | some existingReaction =>
    let db1 := { db with reactions := db.reactions.erase existingReaction }
    if targetType = "post" then
      if db1.posts.any (fun p => p.id = targetId) then
        (.ok ⟨.removed, none⟩, bumpPost targetId (-1) db1)
      else (.error .notFound, db1)
    else if targetType = "comment" then
      if db1.comments.any (fun c => c.id = targetId) then
        (.ok ⟨.removed, none⟩, bumpComment targetId (-1) db1)
      else (.error .notFound, db1)
    else (.ok ⟨.removed, none⟩, db1)
  | none =>
    let reaction : Reaction :=
      { targetType := targetType, targetId := targetId, userId := userId, type := rtype }
    let db1 := { db with reactions := db.reactions ++ [reaction] }
    if targetType = "post" then
      if db1.posts.any (fun p => p.id = targetId) then
        (.ok ⟨.added, some reaction⟩, bumpPost targetId 1 db1)
      else (.error .notFound, db1)
    else if targetType = "comment" then
      if db1.comments.any (fun c => c.id = targetId) then
        (.ok ⟨.added, some reaction⟩, bumpComment targetId 1 db1)
      else (.error .notFound, db1)
    else (.ok ⟨.added, some reaction⟩, db1)

/-- Handler `POST /posts/:id/reactions`: 404 when the post is missing; otherwise
toggle the (post, id, user) ledger row together with the post's counter, and
on the `added` branch best-effort notify the post's author (skipped when the
reactor is the author; `dbOk` is the notification write outcome, whose
failure is swallowed). -/
def togglePostReaction (now : Nat) (dbOk : Bool) (postId userId rtype : String)
    (db : DB) : (Except Err ToggleResult) × DB :=
  match db.posts.find? (fun p => p.id = postId) with
  | none => (.error .notFound, db)
  | some _ =>
    match findReaction db "post" postId userId with
    | some existingReaction =>
      let db1 := { db with reactions := db.reactions.erase existingReaction }
      (.ok ⟨.removed, none⟩, bumpPost postId (-1) db1)
    | none =>
      let reaction : Reaction :=
        { targetType := "post", targetId := postId, userId := userId, type := rtype }
      let db1 := { db with reactions := db.reactions ++ [reaction] }
      let db2 := bumpPost postId 1 db1
      let db3 :=
        match db2.posts.find? (fun p => p.id = postId) with
        | some post =>
          if post.authorId ≠ userId then
            sendReactionNotification dbOk now post.authorId userId "post" postId rtype db2
          else db2
        | none => db2
      (.ok ⟨.added, some reaction⟩, db3)

/-- A finite sequence of `n` toggle-reaction calls with fixed arguments. -/
def iterToggle (targetType targetId userId rtype : String) : Nat → DB → DB
  | 0, db => db
  | n + 1, db =>
    iterToggle targetType targetId userId rtype n
      (toggleReaction targetType targetId userId rtype db).2

/-- The target referenced by (targetType, targetId) exists in the store. -/
def targetExistsB (db : DB) (targetType targetId : String) : Bool :=
  if targetType = "post" then db.posts.any (fun p => p.id = targetId)
  else if targetType = "comment" then db.comments.any (fun c => c.id = targetId)
  else false

/-- Counter consistency for one target: its denormalized `reactionCount`
equals the number of live ledger rows for it. -/
def countersOk (db : DB) (targetType targetId : String) : Prop :=
  (∀ p ∈ db.posts, targetType = "post" → p.id = targetId →
     p.reactionCount = (liveCount db targetType targetId : Int)) ∧
  (∀ c ∈ db.comments, targetType = "comment" → c.id = targetId →
     c.reactionCount = (liveCount db targetType targetId : Int))

/-- The empty store. -/
def emptyDb : DB :=
  { users := [], posts := [], comments := [], reactions := [], notifications := []
  , subscriptions := [], nextId := 0 }

/-- C2: the Dispatcher persists exactly one Notification with status
`scheduled`, `scheduledFor = now` and `readAt = null`; on internal failure it
raises nothing and writes nothing; and the toggle-reaction response is the
same whether or not the notification write succeeds. -/
theorem notify_contract (now : Nat) (uid : String) (payload : NotificationPayload)
    (db : DB) (pid ruid rtype : String) :
  ((createNotification true now uid payload db).notifications =
    db.notifications ++
      [{ id := db.nextId, userId := uid, type := payload.type, title := payload.title
       , message := payload.message, scheduledFor := now, status := "scheduled"
       , readAt := none, createdAt := now, dataContent := payload.dataContent
       , actionUrl := payload.actionUrl }])
  ∧ (createNotification false now uid payload db = db)
  ∧ ((togglePostReaction now true pid ruid rtype db).1 =
      (togglePostReaction now false pid ruid rtype db).1) := by
  refine ⟨rfl, rfl, ?_⟩
  unfold togglePostReaction
  cases hp : db.posts.find? (fun p => p.id = pid) with
  | none => rfl
  | some post =>
    cases hr : findReaction db "post" pid ruid with
    | some r => rfl
    | none => rfl

/-- C4: `markRead` fails with NotFound when no notification has the id, with
Forbidden when it belongs to a different user, and on success sets
`readAt = now` and `status = "delivered"` on that row. -/
theorem markRead_spec (now : Nat) (uid : String) (nid : Nat) (db : DB) :
  (db.notifications.find? (fun x => x.id = nid) = none →
    markRead now uid nid db = (.error .notFound, db))
  ∧ (∀ x, db.notifications.find? (fun x => x.id = nid) = some x → x.userId ≠ uid →
    markRead now uid nid db = (.error .forbidden, db))
  ∧ (∀ x, db.notifications.find? (fun x => x.id = nid) = some x → x.userId = uid →
    (markRead now uid nid db).1 =
      .ok { x with readAt := some now, status := "delivered" }
    ∧ (markRead now uid nid db).2.notifications =
      db.notifications.map (fun y =>
        if y.id = nid then { y with readAt := some now, status := "delivered" } else y)) := by
  refine ⟨?_, ?_, ?_⟩
  · intro h; unfold markRead; rw [h]
  · intro x hx hne; unfold markRead; rw [hx]; simp only [ne_eq]
    rw [if_pos hne]
  · intro x hx he; unfold markRead; rw [hx]; simp only [ne_eq]
    rw [if_neg (fun hc => hc he)]
    exact ⟨rfl, rfl⟩

/-- C5: `unsubscribe` fails with NotFound when no subscription row matches
the (user, targetType, targetId) triple; when a row matches, the matching
row is removed and the call succeeds. -/
theorem unsubscribe_spec (uid tt ti : String) (db : DB) :
  ((∀ s ∈ db.subscriptions,
      ¬(s.userId = uid ∧ s.targetType = tt ∧ s.targetId = ti)) →
    unsubscribe uid tt ti db = (.error .notFound, db))
  ∧ (∀ s, db.subscriptions.find?
        (fun s => s.userId = uid ∧ s.targetType = tt ∧ s.targetId = ti) = some s →
    (unsubscribe uid tt ti db).1 = .ok ()
    ∧ (unsubscribe uid tt ti db).2.subscriptions = db.subscriptions.erase s) := by
  constructor
  · intro h
    have hn : db.subscriptions.find?
        (fun s => decide (s.userId = uid ∧ s.targetType = tt ∧ s.targetId = ti)) = none := by
      rw [List.find?_eq_none]
      intro s hs
      simpa using h s hs
    unfold unsubscribe
    rw [hn]
  · intro s hs
    unfold unsubscribe
    rw [hs]
    exact ⟨rfl, rfl⟩

/-- C8: `markAllRead` is idempotent: a second invocation matches only rows
with `readAt = null`, of which the first left none for this user. -/
theorem markAllRead_idempotent (t1 t2 : Nat) (uid : String) (db : DB) :
  markAllRead t2 uid (markAllRead t1 uid db) = markAllRead t1 uid db := by
  unfold markAllRead
  simp only [List.map_map]
  congr 1
  apply List.map_congr_left
  intro x _
  by_cases h : x.userId = uid ∧ x.readAt = none
  · simp [Function.comp, h]
  · simp [Function.comp, if_neg h]

/-- C10: for a `targetType` other than `'post'`/`'comment'`, the generic
add-reaction still creates (or on toggle deletes) the ledger row keyed on
the arbitrary triple and reports `added`/`removed`, but mutates no counter:
posts and comments are untouched. -/
theorem genericReaction_no_counter (tt ti uid ty : String) (db : DB)
    (h1 : tt ≠ "post") (h2 : tt ≠ "comment") :
  (toggleReaction tt ti uid ty db).2.posts = db.posts
  ∧ (toggleReaction tt ti uid ty db).2.comments = db.comments
  ∧ (findReaction db tt ti uid = none →
      (toggleReaction tt ti uid ty db).1 = .ok ⟨.added, some ⟨tt, ti, uid, ty⟩⟩
      ∧ (toggleReaction tt ti uid ty db).2.reactions =
          db.reactions ++ [⟨tt, ti, uid, ty⟩])
  ∧ (∀ r, findReaction db tt ti uid = some r →
      (toggleReaction tt ti uid ty db).1 = .ok ⟨.removed, none⟩
      ∧ (toggleReaction tt ti uid ty db).2.reactions = db.reactions.erase r) := by
  cases hf : findReaction db tt ti uid with
  | none =>
    simp [toggleReaction, hf, h1, h2]
  | some r =>
    simp [toggleReaction, hf, h1, h2]

/-- A store holding one reaction row with an off-enum target type. -/
def exReactDb : DB :=
  { emptyDb with reactions := [⟨"bookmark", "t1", "u1", "like"⟩] }

/-- C10 witness: both toggle directions at a concrete `'bookmark'` target. -/
theorem genericReaction_no_counter_witness :
  (("bookmark" : String) ≠ "post" ∧ ("bookmark" : String) ≠ "comment"
    ∧ findReaction emptyDb "bookmark" "t1" "u1" = none
    ∧ findReaction exReactDb "bookmark" "t1" "u1" = some ⟨"bookmark", "t1", "u1", "like"⟩)
  ∧ ((toggleReaction "bookmark" "t1" "u1" "like" emptyDb).1 =
        .ok ⟨.added, some ⟨"bookmark", "t1", "u1", "like"⟩⟩
     ∧ (toggleReaction "bookmark" "t1" "u1" "like" emptyDb).2.reactions =
        emptyDb.reactions ++ [⟨"bookmark", "t1", "u1", "like"⟩])
  ∧ ((toggleReaction "bookmark" "t1" "u1" "like" exReactDb).1 = .ok ⟨.removed, none⟩
     ∧ (toggleReaction "bookmark" "t1" "u1" "like" exReactDb).2.reactions =
        exReactDb.reactions.erase ⟨"bookmark", "t1", "u1", "like"⟩) := by
  refine ⟨⟨by decide, by decide, rfl, rfl⟩, ?_, ?_⟩
  · exact (genericReaction_no_counter "bookmark" "t1" "u1" "like" emptyDb
      (by decide) (by decide)).2.2.1 rfl
  · exact (genericReaction_no_counter "bookmark" "t1" "u1" "like" exReactDb
      (by decide) (by decide)).2.2.2 _ rfl

/-- A store holding exactly one user, `u1`. -/
def mentionDb : DB :=
  { emptyDb with users := [{ id := "u1", name := some "Alice", handle := "alice" }] }

/-- C3 counterexample: the mention builder performs no self-notification
check — when user `u1` mentions themself, one notification addressed to `u1`
is created, contradicting the claim that every builder suppresses
self-notification. -/
theorem mention_self_notification :
  ((sendMentionNotification true 0 "u1" "u1" "post" "p1" "hi" mentionDb).notifications.filter
    (fun n => n.userId = "u1")).length = 1 := by
  decide

/-- C3 amended: self-notification is suppressed by the reply and reaction
builders (not by the mention builder); the reply, reaction and mention
builders are silent no-ops when the actor record cannot be resolved. -/
theorem builders_self_suppression (dbOk : Bool) (now : Nat)
    (x y pid cid content tt ti ty : String) (db : DB) :
  (x = y → sendReplyNotification dbOk now x y pid cid content db = db)
  ∧ (x = y → sendReactionNotification dbOk now x y tt ti ty db = db)
  ∧ (db.users.find? (fun u => u.id = y) = none →
      sendReplyNotification dbOk now x y pid cid content db = db
      ∧ sendReactionNotification dbOk now x y tt ti ty db = db
      ∧ sendMentionNotification dbOk now x y tt ti content db = db) := by
  refine ⟨?_, ?_, ?_⟩
  · intro h
    cases hf : db.users.find? (fun u => u.id = y) with
    | none => simp [sendReplyNotification, hf]
    | some v => simp [sendReplyNotification, hf, h]
  · intro h
    cases hf : db.users.find? (fun u => u.id = y) with
    | none => simp [sendReactionNotification, hf]
    | some v => simp [sendReactionNotification, hf, h]
  · intro hf
    exact ⟨by simp [sendReplyNotification, hf],
           by simp [sendReactionNotification, hf],
           by simp [sendMentionNotification, hf]⟩

/-- C3 witness for the amended claim: self-reply and self-reaction by `u1`
create nothing, and all three builders are no-ops when the actor is absent. -/
theorem builders_self_suppression_witness :
  (("u1" : String) = "u1" ∧ emptyDb.users.find? (fun u => u.id = "u1") = none)
  ∧ sendReplyNotification true 0 "u1" "u1" "p1" "c1" "t" emptyDb = emptyDb
  ∧ sendReactionNotification true 0 "u1" "u1" "post" "p1" "like" emptyDb = emptyDb
  ∧ sendMentionNotification true 0 "u1" "u1" "post" "p1" "t" emptyDb = emptyDb := by
  refine ⟨⟨rfl, rfl⟩, ?_, ?_, ?_⟩
  · exact (builders_self_suppression true 0 "u1" "u1" "p1" "c1" "t" "post" "p1" "like"
      emptyDb).1 rfl
  · exact (builders_self_suppression true 0 "u1" "u1" "p1" "c1" "t" "post" "p1" "like"
      emptyDb).2.1 rfl
  · exact ((builders_self_suppression true 0 "u1" "u1" "p1" "c1" "t" "post" "p1" "like"
      emptyDb).2.2 rfl).2.2

/-- C7: mention and reply notifications store the quoted content truncated
by `truncate100`: the first 100 characters plus an ellipsis marker when the
content is longer than 100 characters, the content verbatim otherwise. -/
theorem content_truncation (now : Nat) (mdU mrU tt ti oa rp pid cid : String)
    (content : String) (db db2 : DB) (u v : User)
    (hm : db.users.find? (fun x => x.id = mrU) = some u)
    (hr : db2.users.find? (fun x => x.id = rp) = some v)
    (hne : oa ≠ rp) :
  ((sendMentionNotification true now mdU mrU tt ti content db).notifications.map
      (fun n => n.dataContent)
    = db.notifications.map (fun n => n.dataContent) ++ [some (truncate100 content)])
  ∧ ((sendReplyNotification true now oa rp pid cid content db2).notifications.map
      (fun n => n.dataContent)
    = db2.notifications.map (fun n => n.dataContent) ++ [some (truncate100 content)])
  ∧ (content.length ≤ 100 → truncate100 content = content)
  ∧ (100 < content.length →
      (truncate100 content).data = content.data.take 100 ++ "...".data) := by
  refine ⟨?_, ?_, ?_, ?_⟩
  · simp [sendMentionNotification, hm, createNotification]
  · simp [sendReplyNotification, hr, hne, createNotification]
  · intro h
    have hd : content.data.length ≤ 100 := h
    unfold truncate100
    rw [if_neg (by omega), List.take_of_length_le hd]
    apply String.ext
    show content.data ++ [] = content.data
    simp
  · intro h
    have hd : 100 < content.data.length := h
    unfold truncate100
    rw [if_pos hd]
    simp

/-- One unread notification row for user `u1`. -/
def inboxNotif : Notification :=
  { id := 1, userId := "u1", type := "mention", title := "t", message := "m"
  , scheduledFor := 0, status := "scheduled", readAt := none, createdAt := 0
  , dataContent := none, actionUrl := none }

/-- A store holding exactly the notification `inboxNotif`. -/
def inboxDb : DB := { emptyDb with notifications := [inboxNotif] }

/-- C4 witness: all three branches of `markRead` at concrete stores. -/
theorem markRead_spec_witness :
  (emptyDb.notifications.find? (fun x => x.id = 1) = none
    ∧ inboxDb.notifications.find? (fun x => x.id = 1) = some inboxNotif
    ∧ inboxNotif.userId ≠ "u2"
    ∧ inboxNotif.userId = "u1")
  ∧ markRead 5 "u1" 1 emptyDb = (.error .notFound, emptyDb)
  ∧ markRead 5 "u2" 1 inboxDb = (.error .forbidden, inboxDb)
  ∧ ((markRead 5 "u1" 1 inboxDb).1 =
        .ok { inboxNotif with readAt := some 5, status := "delivered" }
     ∧ (markRead 5 "u1" 1 inboxDb).2.notifications =
        inboxDb.notifications.map (fun y =>
          if y.id = 1 then { y with readAt := some 5, status := "delivered" } else y)) := by
  refine ⟨⟨rfl, rfl, by decide, rfl⟩, ?_, ?_, ?_⟩
  · exact (markRead_spec 5 "u1" 1 emptyDb).1 rfl
  · exact (markRead_spec 5 "u2" 1 inboxDb).2.1 inboxNotif rfl (by decide)
  · exact (markRead_spec 5 "u1" 1 inboxDb).2.2 inboxNotif rfl rfl

/-- One subscription row for (`u1`, `post`, `p1`). -/
def subRow : Subscription :=
  { userId := "u1", targetType := "post", targetId := "p1"
  , inApp := true, email := false, push := false }

/-- A store holding exactly the subscription `subRow`. -/
def subDb : DB := { emptyDb with subscriptions := [subRow] }

/-- C5 witness: both branches of `unsubscribe` at concrete stores. -/
theorem unsubscribe_spec_witness :
  ((∀ s ∈ emptyDb.subscriptions,
      ¬(s.userId = "u1" ∧ s.targetType = "post" ∧ s.targetId = "p1"))
    ∧ subDb.subscriptions.find?
        (fun s => s.userId = "u1" ∧ s.targetType = "post" ∧ s.targetId = "p1") = some subRow)
  ∧ unsubscribe "u1" "post" "p1" emptyDb = (.error .notFound, emptyDb)
  ∧ ((unsubscribe "u1" "post" "p1" subDb).1 = .ok ()
     ∧ (unsubscribe "u1" "post" "p1" subDb).2.subscriptions =
        subDb.subscriptions.erase subRow) := by
  refine ⟨⟨by simp [emptyDb], rfl⟩, ?_, ?_⟩
  · exact (unsubscribe_spec "u1" "post" "p1" emptyDb).1 (by simp [emptyDb])
  · exact (unsubscribe_spec "u1" "post" "p1" subDb).2 subRow rfl

/-- 101 characters of content, used to exercise the truncation branch. -/
def longContent : String := String.mk (List.replicate 101 'a')

/-- C7 witness: truncation behavior at a 5-character and a 101-character
content, through the mention and reply builders. -/
theorem content_truncation_witness :
  (mentionDb.users.find? (fun x => x.id = "u1") =
      some { id := "u1", name := some "Alice", handle := "alice" }
    ∧ ("u2" : String) ≠ "u1"
    ∧ ("hello" : String).length ≤ 100
    ∧ 100 < longContent.length)
  ∧ truncate100 "hello" = "hello"
  ∧ (truncate100 longContent).data = longContent.data.take 100 ++ "...".data := by
  refine ⟨⟨rfl, by decide, by decide, by decide⟩, ?_, ?_⟩
  · exact (content_truncation 0 "u1" "u1" "post" "p1" "u2" "u1" "p1" "c1" "hello"
      mentionDb mentionDb _ _ rfl rfl (by decide)).2.2.1 (by decide)
  · exact (content_truncation 0 "u1" "u1" "post" "p1" "u2" "u1" "p1" "c1" longContent
      mentionDb mentionDb _ _ rfl rfl (by decide)).2.2.2 (by decide)

/-- A helper to build a notification row for user `u` with a given id,
creation time and read marker. -/
def mkNotif (i : Nat) (created : Nat) (readAt : Option Nat) : Notification :=
  { id := i, userId := "u", type := "mention", title := "t", message := "m"
  , scheduledFor := 0, status := "scheduled", readAt := readAt, createdAt := created
  , dataContent := none, actionUrl := none }

/-- A store where user `u` has 3 unread and 2 read notifications. -/
def exDbC6 : DB :=
  { emptyDb with
    notifications :=
      [ mkNotif 1 1 none, mkNotif 2 2 none, mkNotif 3 3 none
      , mkNotif 4 4 (some 9), mkNotif 5 5 (some 9) ]
  , nextId := 6 }

/-- C6 counterexample: for a user with 3 unread and 2 read notifications,
the unread-only listing with page size 2 returns 2 items, not 3 — the
returned item count is not independent of the page size (the unread count
still is 3). -/
theorem listNotifications_small_page :
  ((listNotifications "u" 1 2 true exDbC6).items.length = 2)
  ∧ (listNotifications "u" 1 2 true exDbC6).unreadCount = 3 := by
  decide

/-- C6 amended: the inbox list returns a page ordered newest-first with
offset `(page-1)*limit`, and an unreadCount over the user's full unread set
independent of page, limit and unreadOnly; for a user with 3 unread and 2
read notifications, the unread-only listing returns exactly 3 items whenever
the page size is at least 3, with an unreadCount of 3. -/
theorem listNotifications_amended (u : String) (p l : Nat) (b : Bool) (db : DB)
    (limit : Nat) (hl : 3 ≤ limit) :
  ((listNotifications u p l b db).unreadCount =
     (db.notifications.filter (fun x => x.userId = u ∧ x.readAt = none)).length)
  ∧ List.Sorted notifOrder ((listNotifications u p l b db).items)
  ∧ ((listNotifications u p l b db).items =
     ((List.insertionSort notifOrder (notifWhere u b db)).drop ((p - 1) * l)).take l)
  ∧ ((listNotifications "u" 1 limit true exDbC6).items.length = 3
     ∧ (listNotifications "u" 1 limit true exDbC6).unreadCount = 3) := by
  refine ⟨rfl, ?_, rfl, ?_, rfl⟩
  · exact (List.sorted_insertionSort notifOrder (notifWhere u b db)).sublist
      ((List.take_sublist _ _).trans (List.drop_sublist _ _))
  · have hlen : (List.insertionSort notifOrder (notifWhere "u" true exDbC6)).length = 3 := by
      rw [List.length_insertionSort]
      decide
    show (((List.insertionSort notifOrder (notifWhere "u" true exDbC6)).drop
        ((1 - 1) * limit)).take limit).length = 3
    rw [List.length_take, List.length_drop, hlen]
    omega

/-- C6 witness for the amended claim, at page size exactly 3. -/
theorem listNotifications_amended_witness :
  3 ≤ 3
  ∧ ((listNotifications "u" 1 3 true exDbC6).items.length = 3
     ∧ (listNotifications "u" 1 3 true exDbC6).unreadCount = 3) :=
  ⟨by decide, (listNotifications_amended "u" 1 3 true exDbC6 3 (by decide)).2.2.2⟩

/-- The feed sort rearranges but keeps the filtered rows. -/
theorem sortPosts_perm (sort : String) (l : List Post) : (sortPosts sort l).Perm l := by
  unfold sortPosts
  split_ifs <;> exact List.perm_insertionSort _ _

/-- C9: with a cursor, only posts with id strictly below the cursor are
returned, the page argument is ignored and the offset is zero; without a
cursor the offset is `(page-1)*limit`; and `hasMore` equals
`offset + limit < total` in both modes. -/
theorem listFeed_pagination (sort : String) (page page2 limit : Nat) (c : String)
    (se g : Option String) (db : DB) :
  ((listFeed sort page limit (some c) se g db).items.all (fun p => p.id < c) = true)
  ∧ ((listFeed sort page limit (some c) se g db).items =
      (listFeed sort page2 limit (some c) se g db).items
     ∧ (listFeed sort page limit (some c) se g db).total =
      (listFeed sort page2 limit (some c) se g db).total
     ∧ (listFeed sort page limit (some c) se g db).hasMore =
      (listFeed sort page2 limit (some c) se g db).hasMore)
  ∧ ((listFeed sort page limit (some c) se g db).items =
      (sortPosts sort (db.posts.filter (feedWhere db (some c) se g))).take limit)
  ∧ ((listFeed sort page limit none se g db).items =
      ((sortPosts sort (db.posts.filter (feedWhere db none se g))).drop
        ((page - 1) * limit)).take limit)
  ∧ ((listFeed sort page limit (some c) se g db).hasMore =
      decide (0 + limit < (listFeed sort page limit (some c) se g db).total))
  ∧ ((listFeed sort page limit none se g db).hasMore =
      decide ((page - 1) * limit + limit < (listFeed sort page limit none se g db).total)) := by
  refine ⟨?_, ⟨rfl, rfl, rfl⟩, rfl, rfl, rfl, rfl⟩
  rw [List.all_eq_true]
  intro p hp
  have h1 : p ∈ sortPosts sort (db.posts.filter (feedWhere db (some c) se g)) :=
    ((List.take_sublist _ _).trans (List.drop_sublist _ _)).mem hp
  have h2 : p ∈ db.posts.filter (feedWhere db (some c) se g) :=
    (sortPosts_perm _ _).mem_iff.mp h1
  have h3 := List.of_mem_filter h2
  simp only [feedWhere, Bool.and_eq_true, decide_eq_true_eq] at h3
  exact decide_eq_true h3.1.1.2

/-- Removing one occurrence of a matching element decreases the match count
by exactly one. -/
theorem countP_erase_of_mem {α : Type} [DecidableEq α] (p : α → Bool) (a : α) :
    ∀ l : List α, a ∈ l → p a = true → (l.erase a).countP p + 1 = l.countP p := by
  intro l
  induction l with
  | nil => intro h; cases h
  | cons b t ih =>
    intro hmem hpa
    by_cases hba : b = a
    · subst hba
      rw [List.erase_cons_head, List.countP_cons]
      simp [hpa]
    · have hmem' : a ∈ t := by
        cases hmem with
        | head => exact absurd rfl hba
        | tail _ h => exact h
      rw [List.erase_cons_tail (by simp [hba]), List.countP_cons, List.countP_cons]
      have := ih hmem' hpa
      omega

/-- A row matching the unique triple also matches its target's filter. -/
theorem isReactionBy_isReactionFor (tt ti uid : String) (r : Reaction)
    (h : isReactionBy tt ti uid r = true) : isReactionFor tt ti r = true := by
  simp only [isReactionBy, Bool.and_eq_true, decide_eq_true_eq] at h
  simp only [isReactionFor, Bool.and_eq_true, decide_eq_true_eq]
  exact ⟨h.1.1, h.1.2⟩

/-- The counter bump keeps every post id, hence any id-existence check. -/
theorem any_map_bumpPost (l : List Post) (ti ti2 : String) (d : Int) :
    (l.map (fun p => if p.id = ti2
        then { p with reactionCount := p.reactionCount + d } else p)).any
      (fun p => p.id = ti)
    = l.any (fun p => p.id = ti) := by
  induction l with
  | nil => rfl
  | cons a t ih =>
    simp only [List.map_cons, List.any_cons, ih]
    by_cases h : a.id = ti2 <;> simp [h]

/-- The counter bump keeps every comment id, hence any id-existence check. -/
theorem any_map_bumpComment (l : List Comment) (ti ti2 : String) (d : Int) :
    (l.map (fun c => if c.id = ti2
        then { c with reactionCount := c.reactionCount + d } else c)).any
      (fun c => c.id = ti)
    = l.any (fun c => c.id = ti) := by
  induction l with
  | nil => rfl
  | cons a t ih =>
    simp only [List.map_cons, List.any_cons, ih]
    by_cases h : a.id = ti2 <;> simp [h]

/-- Bumping a post counter does not change which targets exist. -/
theorem targetExistsB_bumpPost (db : DB) (tt ti ti2 : String) (d : Int) :
    targetExistsB (bumpPost ti2 d db) tt ti = targetExistsB db tt ti := by
  unfold targetExistsB bumpPost
  by_cases h1 : tt = "post"
  · simp only [if_pos h1]
    exact any_map_bumpPost db.posts ti ti2 d
  · simp only [if_neg h1]

/-- Bumping a comment counter does not change which targets exist. -/
theorem targetExistsB_bumpComment (db : DB) (tt ti ti2 : String) (d : Int) :
    targetExistsB (bumpComment ti2 d db) tt ti = targetExistsB db tt ti := by
  unfold targetExistsB bumpComment
  by_cases h1 : tt = "post"
  · simp only [if_pos h1]
  · simp only [if_neg h1]
    by_cases h2 : tt = "comment"
    · simp only [if_pos h2]
      exact any_map_bumpComment db.comments ti ti2 d
    · simp only [if_neg h2]

/-- Replacing the ledger by `rs` and applying the matching post-counter bump
preserves counter consistency for a post target. -/
theorem countersOk_bumpPost (db : DB) (ti : String) (d : Int) (rs : List Reaction)
    (hc : countersOk db "post" ti)
    (hlive : (rs.countP (isReactionFor "post" ti) : Int)
        = (liveCount db "post" ti : Int) + d) :
    countersOk (bumpPost ti d { db with reactions := rs }) "post" ti := by
  constructor
  · intro q hq _ hid
    rcases List.mem_map.1 hq with ⟨p, hp, rfl⟩
    by_cases h : p.id = ti
    · have hrc := hc.1 p hp rfl h
      simp only [liveCount] at hrc hlive ⊢
      simp only [if_pos h]
      have hrs : (bumpPost ti d { db with reactions := rs }).reactions = rs := rfl
      rw [hrs]
      omega
    · simp only [if_neg h] at hid
      exact absurd hid h
  · intro c hcm htteq
    exact absurd htteq (by decide)

/-- Replacing the ledger by `rs` and applying the matching comment-counter
bump preserves counter consistency for a comment target. -/
theorem countersOk_bumpComment (db : DB) (ti : String) (d : Int) (rs : List Reaction)
    (hc : countersOk db "comment" ti)
    (hlive : (rs.countP (isReactionFor "comment" ti) : Int)
        = (liveCount db "comment" ti : Int) + d) :
    countersOk (bumpComment ti d { db with reactions := rs }) "comment" ti := by
  constructor
  · intro p hpm htteq
    exact absurd htteq (by decide)
  · intro q hq _ hid
    rcases List.mem_map.1 hq with ⟨c, hcm, rfl⟩
    by_cases h : c.id = ti
    · have hrc := hc.2 c hcm rfl h
      simp only [liveCount] at hrc hlive ⊢
      simp only [if_pos h]
      have hrs : (bumpComment ti d { db with reactions := rs }).reactions = rs := rfl
      rw [hrs]
      omega
    · simp only [if_neg h] at hid
      exact absurd hid h

/-- One toggle step on an existing post or comment target: target existence
and counter consistency are preserved, and the user's ledger-row count flips
between 0 and 1. -/
theorem toggleReaction_step (tt ti uid ty : String) (db : DB)
    (htt : tt = "post" ∨ tt = "comment")
    (hex : targetExistsB db tt ti = true)
    (hcnt : userCount db tt ti uid ≤ 1)
    (hc : countersOk db tt ti) :
    targetExistsB (toggleReaction tt ti uid ty db).2 tt ti = true
    ∧ countersOk (toggleReaction tt ti uid ty db).2 tt ti
    ∧ userCount (toggleReaction tt ti uid ty db).2 tt ti uid
        = 1 - userCount db tt ti uid := by
  rcases htt with rfl | rfl
  · have hexP : db.posts.any (fun p => p.id = ti) = true := by
      simpa [targetExistsB] using hex
    cases hfind : findReaction db "post" ti uid with
    | some r =>
      have hrb : isReactionBy "post" ti uid r = true := List.find?_some hfind
      have hrm : r ∈ db.reactions := List.mem_of_find?_eq_some hfind
      have hrf : isReactionFor "post" ti r = true := isReactionBy_isReactionFor _ _ _ _ hrb
      have hu := countP_erase_of_mem (isReactionBy "post" ti uid) r db.reactions hrm hrb
      have hl := countP_erase_of_mem (isReactionFor "post" ti) r db.reactions hrm hrf
      have hred : toggleReaction "post" ti uid ty db
          = (.ok ⟨.removed, none⟩,
             bumpPost ti (-1) { db with reactions := db.reactions.erase r }) := by
        simp [toggleReaction, hfind, hexP]
      rw [hred]
      refine ⟨?_, ?_, ?_⟩
      · rw [targetExistsB_bumpPost]
        exact hex
      · apply countersOk_bumpPost db ti (-1) (db.reactions.erase r) hc
        simp only [liveCount]
        omega
      · show (db.reactions.erase r).countP (isReactionBy "post" ti uid)
            = 1 - db.reactions.countP (isReactionBy "post" ti uid)
        simp only [userCount] at hcnt
        omega
    | none =>
      have hu0 : db.reactions.countP (isReactionBy "post" ti uid) = 0 := by
        rw [List.countP_eq_zero]
        exact List.find?_eq_none.mp hfind
      have hby : isReactionBy "post" ti uid
          ({ targetType := "post", targetId := ti, userId := uid, type := ty } : Reaction)
          = true := by
        simp [isReactionBy]
      have hfor : isReactionFor "post" ti
          ({ targetType := "post", targetId := ti, userId := uid, type := ty } : Reaction)
          = true := by
        simp [isReactionFor]
      have happ : ∀ p : Reaction → Bool,
          p ({ targetType := "post", targetId := ti, userId := uid, type := ty } : Reaction)
            = true →
          (db.reactions ++
            [({ targetType := "post", targetId := ti, userId := uid, type := ty } :
              Reaction)]).countP p
            = db.reactions.countP p + 1 := by
        intro p hp
        rw [List.countP_append]
        simp [List.countP_cons, hp]
      have hred : toggleReaction "post" ti uid ty db
          = (.ok ⟨.added, some
               { targetType := "post", targetId := ti, userId := uid, type := ty }⟩,
             bumpPost ti 1 { db with reactions := db.reactions ++
               [{ targetType := "post", targetId := ti, userId := uid, type := ty }] }) := by
        simp [toggleReaction, hfind, hexP]
      rw [hred]
      refine ⟨?_, ?_, ?_⟩
      · rw [targetExistsB_bumpPost]
        exact hex
      · apply countersOk_bumpPost db ti 1 _ hc
        simp only [liveCount]
        rw [happ _ hfor]
        push_cast
        ring
      · show (db.reactions ++
            [({ targetType := "post", targetId := ti, userId := uid, type := ty } :
              Reaction)]).countP (isReactionBy "post" ti uid)
            = 1 - db.reactions.countP (isReactionBy "post" ti uid)
        rw [happ _ hby, hu0]
  · have hexC : db.comments.any (fun c => c.id = ti) = true := by
      simpa [targetExistsB] using hex
    cases hfind : findReaction db "comment" ti uid with
    | some r =>
      have hrb : isReactionBy "comment" ti uid r = true := List.find?_some hfind
      have hrm : r ∈ db.reactions := List.mem_of_find?_eq_some hfind
      have hrf : isReactionFor "comment" ti r = true := isReactionBy_isReactionFor _ _ _ _ hrb
      have hu := countP_erase_of_mem (isReactionBy "comment" ti uid) r db.reactions hrm hrb
      have hl := countP_erase_of_mem (isReactionFor "comment" ti) r db.reactions hrm hrf
      have hred : toggleReaction "comment" ti uid ty db
          = (.ok ⟨.removed, none⟩,
             bumpComment ti (-1) { db with reactions := db.reactions.erase r }) := by
        simp [toggleReaction, hfind, hexC]
      rw [hred]
      refine ⟨?_, ?_, ?_⟩
      · rw [targetExistsB_bumpComment]
        exact hex
      · apply countersOk_bumpComment db ti (-1) (db.reactions.erase r) hc
        simp only [liveCount]
        omega
      · show (db.reactions.erase r).countP (isReactionBy "comment" ti uid)
            = 1 - db.reactions.countP (isReactionBy "comment" ti uid)
        simp only [userCount] at hcnt
        omega
    | none =>
      have hu0 : db.reactions.countP (isReactionBy "comment" ti uid) = 0 := by
        rw [List.countP_eq_zero]
        exact List.find?_eq_none.mp hfind
      have hby : isReactionBy "comment" ti uid
          ({ targetType := "comment", targetId := ti, userId := uid, type := ty } : Reaction)
          = true := by
        simp [isReactionBy]
      have hfor : isReactionFor "comment" ti
          ({ targetType := "comment", targetId := ti, userId := uid, type := ty } : Reaction)
          = true := by
        simp [isReactionFor]
      have happ : ∀ p : Reaction → Bool,
          p ({ targetType := "comment", targetId := ti, userId := uid, type := ty } : Reaction)
            = true →
          (db.reactions ++
            [({ targetType := "comment", targetId := ti, userId := uid, type := ty } :
              Reaction)]).countP p
            = db.reactions.countP p + 1 := by
        intro p hp
        rw [List.countP_append]
        simp [List.countP_cons, hp]
      have hred : toggleReaction "comment" ti uid ty db
          = (.ok ⟨.added, some
               { targetType := "comment", targetId := ti, userId := uid, type := ty }⟩,
             bumpComment ti 1 { db with reactions := db.reactions ++
               [{ targetType := "comment", targetId := ti, userId := uid, type := ty }] }) := by
        simp [toggleReaction, hfind, hexC]
      rw [hred]
      refine ⟨?_, ?_, ?_⟩
      · rw [targetExistsB_bumpComment]
        exact hex
      · apply countersOk_bumpComment db ti 1 _ hc
        simp only [liveCount]
        rw [happ _ hfor]
        push_cast
        ring
      · show (db.reactions ++
            [({ targetType := "comment", targetId := ti, userId := uid, type := ty } :
              Reaction)]).countP (isReactionBy "comment" ti uid)
            = 1 - db.reactions.countP (isReactionBy "comment" ti uid)
        rw [happ _ hby, hu0]

/-- Iterating toggles preserves target existence and counter consistency,
and the user's ledger-row count follows the parity of the calls. -/
theorem iterToggle_invariant (tt ti uid ty : String)
    (htt : tt = "post" ∨ tt = "comment") :
    ∀ (n : Nat) (db : DB), targetExistsB db tt ti = true →
      userCount db tt ti uid ≤ 1 → countersOk db tt ti →
      targetExistsB (iterToggle tt ti uid ty n db) tt ti = true
      ∧ countersOk (iterToggle tt ti uid ty n db) tt ti
      ∧ userCount (iterToggle tt ti uid ty n db) tt ti uid
          = (userCount db tt ti uid + n) % 2 := by
  intro n
  induction n with
  | zero =>
    intro db hex hcnt hc
    refine ⟨hex, hc, ?_⟩
    show userCount db tt ti uid = (userCount db tt ti uid + 0) % 2
    omega
  | succ n ih =>
    intro db hex hcnt hc
    have hstep := toggleReaction_step tt ti uid ty db htt hex hcnt hc
    have hcnt2 : userCount (toggleReaction tt ti uid ty db).2 tt ti uid ≤ 1 := by
      omega
    have hres := ih (toggleReaction tt ti uid ty db).2 hstep.1 hcnt2 hstep.2.1
    refine ⟨hres.1, hres.2.1, ?_⟩
    show userCount (iterToggle tt ti uid ty n (toggleReaction tt ti uid ty db).2) tt ti uid
        = (userCount db tt ti uid + (n + 1)) % 2
    rw [hres.2.2, hstep.2.2]
    omega

/-- C1: starting from a state where the target exists, user U holds no
reaction row on it, and its counter is consistent, after any finite sequence
of toggle-reaction calls by U the ledger holds a live row for (T, U) iff the
number of calls is odd, and T's `reactionCount` equals the number of live
ledger rows for T across all users. -/
theorem toggle_parity_counter (tt ti uid ty : String) (db : DB) (n : Nat)
    (htt : tt = "post" ∨ tt = "comment")
    (hex : targetExistsB db tt ti = true)
    (h0 : userCount db tt ti uid = 0)
    (hc : countersOk db tt ti) :
    ((∃ r ∈ (iterToggle tt ti uid ty n db).reactions,
        isReactionBy tt ti uid r = true) ↔ n % 2 = 1)
    ∧ countersOk (iterToggle tt ti uid ty n db) tt ti := by
  have hinv := iterToggle_invariant tt ti uid ty htt n db hex (by omega) hc
  have hcount : userCount (iterToggle tt ti uid ty n db) tt ti uid = n % 2 := by
    rw [hinv.2.2, h0]
    omega
  refine ⟨?_, hinv.2.1⟩
  constructor
  · rintro ⟨r, hrm, hrb⟩
    have hpos : 0 < userCount (iterToggle tt ti uid ty n db) tt ti uid :=
      List.countP_pos_iff.mpr ⟨r, hrm, hrb⟩
    omega
  · intro hodd
    have hpos : 0 < userCount (iterToggle tt ti uid ty n db) tt ti uid := by
      rw [hcount, hodd]
      omega
    exact List.countP_pos_iff.mp hpos

/-- A published post with a consistent zero counter. -/
def examplePost : Post :=
  { id := "p1", authorId := "a", groupId := none, title := none, content := "c"
  , status := "published", createdAt := 0, reactionCount := 0, commentCount := 0
  , viewCount := 0 }

/-- A store holding exactly the post `examplePost` and an empty ledger. -/
def parityDb : DB := { emptyDb with posts := [examplePost] }

/-- C1 witness: three toggles by one user on a fresh post leave exactly one
live row (3 is odd) and a consistent counter. -/
theorem toggle_parity_counter_witness :
  ((("post" : String) = "post" ∨ ("post" : String) = "comment")
    ∧ targetExistsB parityDb "post" "p1" = true
    ∧ userCount parityDb "post" "p1" "u1" = 0
    ∧ countersOk parityDb "post" "p1")
  ∧ (((∃ r ∈ (iterToggle "post" "p1" "u1" "like" 3 parityDb).reactions,
        isReactionBy "post" "p1" "u1" r = true) ↔ 3 % 2 = 1)
     ∧ countersOk (iterToggle "post" "p1" "u1" "like" 3 parityDb) "post" "p1") := by
  have hc : countersOk parityDb "post" "p1" := by
    constructor
    · decide
    · decide
  exact ⟨⟨Or.inl rfl, by decide, by decide, hc⟩,
    toggle_parity_counter "post" "p1" "u1" "like" parityDb 3 (Or.inl rfl)
      (by decide) (by decide) hc⟩
